import Mathlib

/-!
Verification development for the voice-synthesis service.

Shallow embedding of the repository (src/config.py, src/audio_utils.py,
src/tts_engine.py, src/app.py). Pure numeric audio processing is modelled
over `List ℝ` (one entry per sample); external library calls (librosa,
soundfile, the ffmpeg subprocess, the TTS model) are modelled as explicit
outcome parameters ("oracles"), so the theorems quantify over every
behaviour those libraries can exhibit. Exceptions become `Except`,
HTTP error responses become an explicit response type, and the lifetime of
the temporary files a request creates is tracked as explicit lists.
-/

set_option maxHeartbeats 1000000

/-! ## Static configuration (src/config.py) -/

/-- `SAMPLE_RATE = 22050` from config.py. -/
def SAMPLE_RATE : Nat := 22050

/-- `LANGUAGE_OPTIONS` keys from config.py: en, de. -/
def LANGUAGE_OPTIONS : List String := ["en", "de"]

/-- `SAMPLE_AUDIOS["en"]` from config.py. -/
def SAMPLE_AUDIOS_en : List String :=
  ["donald_trump.wav", "elon_musk.wav", "harry_kane.wav",
   "morgan_freeman.wav", "taylor_swift.wav"]

/-- `SAMPLE_AUDIOS["de"]` from config.py. -/
def SAMPLE_AUDIOS_de : List String :=
  ["anke_engelke.wav", "günther_jauch.wav", "heiner_lauterbach.wav",
   "herbert_grönemeyer.wav", "thomas_müller.wav"]

/-- Python `str.strip()`: drop leading and trailing whitespace (modelled
on the character list so that concrete instances evaluate). -/
def pyStrip (s : String) : String :=
  ⟨((s.data.dropWhile Char.isWhitespace).reverse.dropWhile Char.isWhitespace).reverse⟩

/-- Python `str.lower()` as used on file extensions (app.py line 138). -/
def pyLower (s : String) : String :=
  ⟨s.data.map Char.toLower⟩

/-! ## Audio mathematics (src/audio_utils.py), real-valued model

An audio buffer is a `List ℝ` of samples. `np.sqrt(np.mean(audio ** 2))`
becomes `Real.sqrt` of the mean of squares (for the empty list the Lean
convention `x / 0 = 0` makes `rms [] = 0`; numpy would warn and produce
NaN there, an input the service never produces since decoding an empty
buffer already fails upstream). -/

/-- `rms = np.sqrt(np.mean(audio ** 2))` (audio_utils.py line 43). -/
noncomputable def rms (a : List ℝ) : ℝ :=
  Real.sqrt ((a.map (fun x => x ^ 2)).sum / a.length)

/-- `np.max(np.abs(audio))` (audio_utils.py line 52); `0` for the empty
list (numpy would raise there, see `rms`). -/
noncomputable def peakAbs (a : List ℝ) : ℝ :=
  (a.map (fun x => |x|)).foldl max 0

/-- `normalize_audio` (audio_utils.py lines 29-56): scale to RMS 0.1 when
RMS is positive, then linearly scale down to peak 0.95 when the peak
exceeds 0.95. -/
noncomputable def normalize_audio (a : List ℝ) : List ℝ :=
  let r := rms a
  let a1 := if 0 < r then a.map (fun x => x * (0.1 / r)) else a
  let m := peakAbs a1
  if 0.95 < m then a1.map (fun x => x * (0.95 / m)) else a1

/-- `apply_frequency_eq` (audio_utils.py lines 119-134): deliberately a
passthrough (the body is `return audio`). -/
def apply_frequency_eq (audio : List ℝ) (_sr : Nat) : List ℝ := audio

/-- `get_audio_duration` (audio_utils.py lines 197-208): `len(audio) / sr`
in seconds. -/
noncomputable def get_audio_duration (audio : List ℝ) (sr : Nat) : ℝ :=
  (audio.length : ℝ) / (sr : ℝ)

/-- `preprocess_reference_audio` (audio_utils.py lines 163-194).
`trim_fn` stands for `trim_silence(audio, sr, top_db=50)`, whose behaviour
is the external `librosa.effects.trim` (with fallback to the input on
failure); the theorems below hold for every possible trim result.
Truncation to `sr * 30` samples and the minimum-length check mirror lines
184-192; the `ValueError` of line 192 becomes the `.error` branch. -/
noncomputable def preprocess_reference_audio (trim_fn : List ℝ → List ℝ)
    (audio : List ℝ) (sr : Nat) : Except String (List ℝ × Nat) :=
  let a1 := trim_fn audio
  let a2 := apply_frequency_eq a1 sr
  let a3 := normalize_audio a2
  let max_samples := sr * 30
  let a4 := if max_samples < a3.length then a3.take max_samples else a3
  let min_samples := sr * 2
  if a4.length < min_samples then
    .error "Reference audio too short - minimum 2 seconds required"
  else
    .ok (a4, sr)

/-! ## Speech-rate adjustment (src/audio_utils.py lines 79-99)

The `rate` parameter is a Python float; the guard `rate <= 0 or rate != rate`
uses IEEE comparison semantics, under which NaN compares false with `<=`
and unequal to itself. `PyFloat` models exactly the distinction that guard
observes: NaN versus an ordinary (rational-valued) float. The external
`librosa.effects.time_stretch` call is an oracle; its exception is caught
and the input returned (lines 93-99). -/

/-- A Python float as observed by the guard in `adjust_speech_rate`. -/
inductive PyFloat
  | nan
  | val (q : ℚ)
deriving DecidableEq, Repr

/-- IEEE `rate <= 0`: false for NaN. -/
def pyLeZero : PyFloat → Bool
  | .nan => false
  | .val q => decide (q ≤ 0)

/-- IEEE `rate != rate`: true exactly for NaN. -/
def pyNeSelf : PyFloat → Bool
  | .nan => true
  | .val _ => false

/-- `adjust_speech_rate` (audio_utils.py lines 79-99). `time_stretch` is
the external librosa call: `.ok` is its return value, `.error` a raised
exception (caught at line 97, returning the input). -/
def adjust_speech_rate (audio : List ℚ) (rate : PyFloat)
    (time_stretch : List ℚ → PyFloat → Except String (List ℚ)) : List ℚ :=
  if pyLeZero rate || pyNeSelf rate then audio
  else
    match time_stretch audio rate with
    | .ok adjusted => adjusted
    | .error _ => audio

/-! ## Format bridge (src/audio_utils.py lines 233-276)

`convert_to_wav_ffmpeg` runs the ffmpeg subprocess with `timeout=30`.
The subprocess behaviour is an oracle: the binary may be absent
(`FileNotFoundError` from `subprocess.run`), the run may complete with a
return code and stderr text, or the 30-second timeout may expire
(`subprocess.TimeoutExpired`). Error mapping follows the except clauses at
lines 273-276: `FileNotFoundError` becomes the dependency-missing
exception; everything else (the non-zero-exit `RuntimeError` of line 269,
or the timeout) is wrapped into the conversion-failed exception. -/

/-- Outcome of the `subprocess.run` call inside `convert_to_wav_ffmpeg`. -/
inductive SubprocessOutcome
  | binaryMissing
  | completed (returncode : Int) (stderrText : String)
  | timedOut
deriving DecidableEq, Repr

/-- The `timeout=30` argument of `subprocess.run` (audio_utils.py line 265). -/
def ffmpegTimeout : Nat := 30

/-- Errors raised by `convert_to_wav_ffmpeg`, tagged with the spec
taxonomy: `dependencyMissing` is the line-274 exception,
`transcodeError` the line-276 wrapper. -/
inductive ConvertError
  | dependencyMissing (msg : String)
  | transcodeError (msg : String)
deriving DecidableEq, Repr

/-- `convert_to_wav_ffmpeg` (audio_utils.py lines 233-276), given the
subprocess outcome. A non-zero return code raises
`RuntimeError(f-string with result.stderr[:200])` (line 269), wrapped at
line 276; a timeout raises `TimeoutExpired`, also wrapped at line 276. -/
def convert_to_wav_ffmpeg (outputPath : String) (sub : SubprocessOutcome) :
    Except ConvertError String :=
  match sub with
  | .binaryMissing =>
    .error (.dependencyMissing "FFmpeg not installed! Please run: conda install ffmpeg -y")
  | .timedOut =>
    .error (.transcodeError
      ("FFmpeg conversion failed: Command ffmpeg timed out after " ++
        toString ffmpegTimeout ++ " seconds"))
  | .completed rc stderrText =>
    if rc ≠ 0 then
      .error (.transcodeError
        ("FFmpeg conversion failed: FFmpeg error: " ++ stderrText.take 200))
    else
      .ok outputPath

/-! ## Engine wrapper (src/tts_engine.py lines 47-121) -/

/-- The mutable flags of `TTSEngine`: `self.model_loaded` and whether
`self.tts` is non-None. -/
structure EngineSt where
  model_loaded : Bool
  tts_loaded : Bool
deriving DecidableEq, Repr

/-- `TTSEngine.is_ready` (tts_engine.py lines 78-80). -/
def is_ready (e : EngineSt) : Bool := e.model_loaded && e.tts_loaded

/-- Failures of `TTSEngine.synthesize`: `engineNotReady` is the
`RuntimeError` of line 96, `referenceNotFound` the `FileNotFoundError` of
line 99, `other` an exception propagating from the TTS library call or the
reload of the written file. -/
inductive EngineFailure
  | engineNotReady (msg : String)
  | referenceNotFound (msg : String)
  | other (msg : String)
deriving DecidableEq, Repr

/-- External effects of `TTSEngine.synthesize`: filesystem existence
(`Path(...).exists()`), the `tts_to_file` model call, and the
`librosa.load(output_path, sr=SAMPLE_RATE)` reload. The reload returns the
decoded samples (abstracted to a token) and the sample rate librosa
reports. -/
structure EngineEnv where
  pathExists : String → Bool
  tts_to_file : Except String Unit
  load_output : String → Except String (Nat × Nat)

/-- `TTSEngine.synthesize` (tts_engine.py lines 82-121). `defaultPath`
stands for `OUTPUT_DIR / f-string(hash(text))` computed at line 104 when
`output_path` is falsy. On success the returned samples and rate are
whatever the reload of `output_path` from disk produced, paired with
`str(output_path)`. -/
def engine_synthesize (e : EngineSt) (refPath outPath defaultPath : String)
    (env : EngineEnv) : Except EngineFailure (Nat × Nat × String) :=
  if ¬ is_ready e then .error (.engineNotReady "TTS model is not ready")
  else if ¬ env.pathExists refPath then
    .error (.referenceNotFound ("Reference audio not found: " ++ refPath))
  else
    let op := if outPath = "" then defaultPath else outPath
    match env.tts_to_file with
    | .error m => .error (.other m)
    | .ok _ =>
      match env.load_output op with
      | .error m => .error (.other m)
      | .ok (audioTok, srTok) => .ok (audioTok, srTok, op)

/-! ## HTTP layer: /synthesize (src/app.py lines 84-274)

Request orchestration model. Audio buffers are abstracted at this level to
`(number of samples, sample rate)` pairs; `preprocess_reference_audio`
(modelled exactly in the real-valued section above) is abstracted here by
an outcome oracle, so the request-level theorems hold for every behaviour
of the numeric pipeline. The model's result records, besides the
response, which temporary files the request ever created, which are still
on disk when the response goes out, and how many times the ffmpeg
subprocess path was invoked. -/

/-- An uploaded reference file; `suffix` is
`Path(reference_audio.filename).suffix` (app.py line 138). -/
structure UploadFile where
  suffix : String
deriving DecidableEq, Repr

/-- The form fields of a /synthesize request (app.py lines 85-90).
`none` for `sample_audio` is Python `None`; the empty string is also
falsy at line 120 and is handled identically. -/
structure SynthRequest where
  text : String
  language : String
  reference_audio : Option UploadFile
  sample_audio : Option String
deriving DecidableEq, Repr

/-- The temporary files a /synthesize request can create: the saved copy
of the uploaded bytes (line 178), the ffmpeg-transcoded copy (line 193),
and the conditioned reference written for the engine (line 233). -/
inductive TempFile
  | upload
  | transcodedWav
  | condRef
deriving DecidableEq, Repr

/-- The resolved reference source (app.py lines 118-133). -/
inductive RefSource
  | sample (name : String)
  | upload (f : UploadFile)
deriving DecidableEq, Repr

/-- HTTP response: a `FileResponse` with a path, or an `HTTPException`
status and detail. -/
inductive HResp
  | ok (path : String)
  | err (status : Nat) (detail : String)
deriving DecidableEq, Repr

/-- Result of the /synthesize model: the response, every temp file the
request created, the temp files still on disk when the response is
returned, and the number of ffmpeg subprocess invocations. -/
structure ReqResult where
  resp : HResp
  created : List TempFile
  disk : List TempFile
  ffmpegCalls : Nat
deriving DecidableEq, Repr

/-- Oracles for the external steps of a /synthesize request: engine
construction (`get_tts_engine`, which loads the model and can raise),
sample-file existence, the three librosa loads, the ffmpeg subprocess,
the preprocessing outcome (abstracting `preprocess_reference_audio` to
the length and rate of its result, or its ValueError), `save_audio`, and
`engine.synthesize`. -/
structure SynthOracles where
  getEngineOk : Bool
  sampleOnDisk : Bool
  loadSample : Except Unit (Nat × Nat)
  loadUpload : Except Unit (Nat × Nat)
  ffmpegBehavior : SubprocessOutcome
  loadWav : Except Unit (Nat × Nat)
  preprocessOutcome : Nat × Nat → Except Unit (Nat × Nat)
  saveAudioOk : Bool
  engineSynth : Except Unit String

/-- `"en" in SAMPLE_AUDIOS loop` (app.py lines 122-126): whether the name
appears in ANY language's sample list. -/
def sampleFound (s : String) : Bool :=
  SAMPLE_AUDIOS_en.contains s || SAMPLE_AUDIOS_de.contains s

/-- A `sample_audio` form value that selects the sample branch: truthy
(line 120) and catalogued (lines 122-127). -/
def validSample : Option String → Bool
  | none => false
  | some s => (!(s == "")) && sampleFound s

/-- Reference-source resolution (app.py lines 118-133): a truthy,
catalogued `sample_audio` wins; otherwise a present upload; otherwise
HTTP 400. -/
def resolveReference (sample_audio : Option String)
    (reference_audio : Option UploadFile) : Except (Nat × String) RefSource :=
  match sample_audio with
  | some s =>
    if s ≠ "" ∧ sampleFound s = true then .ok (.sample s)
    else
      match reference_audio with
      | some u => .ok (.upload u)
      | none => .error (400, "Please provide either a reference audio file or select a sample audio")
  | none =>
    match reference_audio with
    | some u => .ok (.upload u)
    | none => .error (400, "Please provide either a reference audio file or select a sample audio")

/-- Allowed upload extensions (app.py line 137). -/
def allowed_extensions : List String := [".wav", ".mp3", ".flac", ".m4a", ".ogg"]

/-- Temp-file bookkeeping threaded through the reference stage:
which files were created, which are on disk, which are recorded in the
`temp_audio_files` cleanup list (app.py line 150), and ffmpeg calls. -/
structure PipeSt where
  created : List TempFile
  disk : List TempFile
  tracked : List TempFile
  calls : Nat
deriving DecidableEq, Repr

/-- Tail of the handler after a conditioned reference is available
(app.py lines 232-265): write the conditioned copy (NamedTemporaryFile at
line 233 creates the file; a `save_audio` failure raises before the file
is appended to `temp_audio_files`, reaching the outer handler as a 500
with no cleanup), then synthesize under the inner `try` whose `finally`
(lines 258-265) unlinks every file recorded in `temp_audio_files`. -/
def afterRef (o : SynthOracles) (st : PipeSt) : ReqResult :=
  let created := st.created ++ [TempFile.condRef]
  let disk := st.disk ++ [TempFile.condRef]
  if ¬ o.saveAudioOk then
    ⟨.err 500 "Synthesis failed", created, disk, st.calls⟩
  else
    let tracked := st.tracked ++ [TempFile.condRef]
    let finalDisk := disk.filter (fun f => ¬ tracked.contains f)
    match o.engineSynth with
    | .ok path => ⟨.ok path, created, finalDisk, st.calls⟩
    | .error _ => ⟨.err 500 "Synthesis failed", created, finalDisk, st.calls⟩

/-- Preprocessing plus the minimum-duration check (app.py lines 165-172
for the sample branch, 213-220 for the upload branch), given the loaded
audio. A raised exception (including the too-short `ValueError` from
`preprocess_reference_audio`) is caught at line 223 and becomes a 400; a
zero reported sample rate would make `get_audio_duration` raise
`ZeroDivisionError`, caught by the same handler. Every error path returns
with the current disk state: the `finally` cleanup lives further down the
handler and is not reached. -/
def preprocessAndCheck (la : Nat × Nat) (isSample : Bool) (o : SynthOracles)
    (st : PipeSt) : ReqResult :=
  match o.preprocessOutcome la with
  | .error _ => ⟨.err 400 "Failed to process reference audio", st.created, st.disk, st.calls⟩
  | .ok (len, sr) =>
    if sr = 0 then
      ⟨.err 400 "Failed to process reference audio", st.created, st.disk, st.calls⟩
    else if len < 2 * sr then
      ⟨.err 400 (if isSample then "Sample audio is too short - minimum 2 seconds required"
                 else "Reference audio is too short - minimum 2 seconds required"),
       st.created, st.disk, st.calls⟩
    else afterRef o st

/-- Sample branch of the reference stage (app.py lines 156-172): existence
check (404), librosa load (failure caught at line 223 as a 400), then
preprocessing. No temporary file is created on this branch before the
conditioned copy. -/
def refStageSample (s : String) (o : SynthOracles) : ReqResult :=
  if ¬ o.sampleOnDisk then
    ⟨.err 404 ("Sample audio file not found: " ++ s), [], [], 0⟩
  else
    match o.loadSample with
    | .error _ => ⟨.err 400 "Failed to process reference audio", [], [], 0⟩
    | .ok la => preprocessAndCheck la true o ⟨[], [], [], 0⟩

/-- Upload branch of the reference stage (app.py lines 174-220): the
uploaded bytes are written to a temp file (created, on disk, and tracked
in `temp_audio_files`); if the primary librosa load fails, a second temp
file is created for the ffmpeg output (never tracked), the subprocess is
invoked once, and on success the converted file is loaded and unlinked
(lines 203-206). A conversion or reload failure is caught at line 207 and
becomes a 400 with both files still on disk. -/
def refStageUpload (o : SynthOracles) : ReqResult :=
  let st1 : PipeSt := ⟨[.upload], [.upload], [.upload], 0⟩
  match o.loadUpload with
  | .ok la => preprocessAndCheck la false o st1
  | .error _ =>
    let st2 : PipeSt := ⟨[.upload, .transcodedWav], [.upload, .transcodedWav], [.upload], 1⟩
    match convert_to_wav_ffmpeg "wav" o.ffmpegBehavior with
    | .error _ => ⟨.err 400 "Failed to process audio format", st2.created, st2.disk, st2.calls⟩
    | .ok _ =>
      match o.loadWav with
      | .error _ => ⟨.err 400 "Failed to process audio format", st2.created, st2.disk, st2.calls⟩
      | .ok la => preprocessAndCheck la false o ⟨st2.created, [.upload], st2.tracked, st2.calls⟩

/-- The /synthesize handler (app.py lines 84-274): text validation (lines
104-109), language validation (lines 111-116), reference-source
resolution (lines 118-133), upload extension validation (lines 136-143),
engine construction (line 147, a failure there reaches the outer handler
as a 500), then the reference stage. -/
def synthesizeModel (req : SynthRequest) (o : SynthOracles) : ReqResult :=
  if pyStrip req.text = "" then
    ⟨.err 400 "Text cannot be empty", [], [], 0⟩
  else if 5000 < req.text.length then
    ⟨.err 400 "Text length cannot exceed 5000 characters", [], [], 0⟩
  else if ¬ (LANGUAGE_OPTIONS.contains req.language) then
    ⟨.err 400 "Unsupported language. Supported languages: en, de", [], [], 0⟩
  else
    match resolveReference req.sample_audio req.reference_audio with
    | .error (st, d) => ⟨.err st d, [], [], 0⟩
    | .ok (.sample s) =>
      if ¬ o.getEngineOk then ⟨.err 500 "Synthesis failed", [], [], 0⟩
      else refStageSample s o
    | .ok (.upload u) =>
      if ¬ (allowed_extensions.contains (pyLower u.suffix)) then
        ⟨.err 400 "Unsupported audio format", [], [], 0⟩
      else if ¬ o.getEngineOk then ⟨.err 500 "Synthesis failed", [], [], 0⟩
      else refStageUpload o

/-! ## HTTP layer: /synthesize-batch (src/app.py lines 277-356) -/

/-- One entry of the batch result array (app.py lines 328-340): `info`
holds the output filename on success, the stringified exception on
error. -/
structure BatchItem where
  index : Nat
  text : String
  status : String
  info : String
deriving DecidableEq, Repr

/-- Response of the batch endpoint: the JSON `total`/`results` payload or
an HTTP error. -/
inductive BatchResp
  | ok (total : Nat) (results : List BatchItem)
  | err (status : Nat) (detail : String)
deriving DecidableEq, Repr

/-- Oracles for the batch endpoint: `bytesio_to_wav`, the preprocessing
outcome, `save_audio`, engine readiness, and the per-item
`engine.synthesize` outcome (by index and text). -/
structure BatchOracles where
  bytesio : Except Unit (Nat × Nat)
  preprocessOutcome : Nat × Nat → Except Unit (Nat × Nat)
  saveOk : Bool
  engineReady : Bool
  synth : Nat → String → Except String String

/-- `[t.strip() for t in texts.split("\n") if t.strip()]` (app.py
line 316). -/
def textListOf (texts : String) : List String :=
  ((texts.splitOn "\n").map pyStrip).filter (fun t => t ≠ "")

/-- One iteration of the batch loop (app.py lines 319-340). -/
def batchItemOf (i : Nat) (t : String) (r : Except String String) : BatchItem :=
  match r with
  | .ok saved => ⟨i, t, "success", saved⟩
  | .error e => ⟨i, t, "error", e⟩

/-- The batch loop (app.py lines 318-340), with the running index of
`enumerate`. -/
def batchResults (i : Nat) (tl : List String)
    (synth : Nat → String → Except String String) : List BatchItem :=
  match tl with
  | [] => []
  | t :: rest => batchItemOf i t (synth i t) :: batchResults (i + 1) rest synth

/-- The /synthesize-batch handler (app.py lines 277-356): upload presence
check, language check, reference processing (`bytesio_to_wav` then
`preprocess_reference_audio`, failures reaching the outer handler as a
500), the conditioned-reference write, the readiness check (503), then the
per-text loop whose items record failures without aborting. -/
def synthesizeBatchModel (texts language : String) (hasRef : Bool)
    (o : BatchOracles) : BatchResp :=
  if ¬ hasRef then .err 400 "Please upload a reference audio file"
  else if ¬ (LANGUAGE_OPTIONS.contains language) then .err 400 "Unsupported language"
  else
    match o.bytesio with
    | .error _ => .err 500 "Processing failed"
    | .ok la =>
      match o.preprocessOutcome la with
      | .error _ => .err 500 "Processing failed"
      | .ok _ =>
        if ¬ o.saveOk then .err 500 "Processing failed"
        else if ¬ o.engineReady then .err 503 "TTS model is loading"
        else .ok (textListOf texts).length (batchResults 0 (textListOf texts) o.synth)

/-! ## Helper lemmas -/

theorem afterRef_calls (o : SynthOracles) (st : PipeSt) :
    (afterRef o st).ffmpegCalls = st.calls := by
  unfold afterRef
  cases hs : o.saveAudioOk
  · simp [hs]
  · cases he : o.engineSynth <;> simp [hs, he]

theorem preprocessAndCheck_calls (la : Nat × Nat) (b : Bool) (o : SynthOracles)
    (st : PipeSt) : (preprocessAndCheck la b o st).ffmpegCalls = st.calls := by
  unfold preprocessAndCheck
  cases hp : o.preprocessOutcome la with
  | error e => simp
  | ok p =>
    obtain ⟨len, sr⟩ := p
    by_cases h0 : sr = 0
    · simp [h0]
    · by_cases hl : len < 2 * sr
      · simp [h0, hl]
      · simp [h0, hl, afterRef_calls]

theorem refStageUpload_calls_ok (o : SynthOracles) (la : Nat × Nat)
    (h : o.loadUpload = .ok la) : (refStageUpload o).ffmpegCalls = 0 := by
  unfold refStageUpload
  rw [h]
  exact preprocessAndCheck_calls la false o _

theorem refStageUpload_calls_err (o : SynthOracles) (h : o.loadUpload = .error ()) :
    (refStageUpload o).ffmpegCalls = 1 := by
  unfold refStageUpload
  rw [h]
  cases hc : convert_to_wav_ffmpeg "wav" o.ffmpegBehavior with
  | error e => simp
  | ok p =>
    cases hw : o.loadWav with
    | error e => simp
    | ok la => simp [preprocessAndCheck_calls]

theorem resolveReference_none_invalid (sa : Option String)
    (h : validSample sa = false) :
    resolveReference sa none =
      .error (400, "Please provide either a reference audio file or select a sample audio") := by
  cases sa with
  | none => rfl
  | some s =>
    simp only [validSample, Bool.and_eq_false_iff, Bool.not_eq_false', beq_iff_eq] at h
    simp only [resolveReference]
    rw [if_neg]
    rintro ⟨hne, hsf⟩
    rcases h with h | h
    · exact hne h
    · rw [hsf] at h; exact Bool.noConfusion h

theorem batchResults_length (i : Nat) (tl : List String)
    (synth : Nat → String → Except String String) :
    (batchResults i tl synth).length = tl.length := by
  induction tl generalizing i with
  | nil => rfl
  | cons t rest ih => simp [batchResults, ih]

theorem batchResults_get (tl : List String)
    (synth : Nat → String → Except String String) :
    ∀ i k (h : k < tl.length),
      (batchResults i tl synth).get? k =
        some (batchItemOf (i + k) (tl.get ⟨k, h⟩) (synth (i + k) (tl.get ⟨k, h⟩))) := by
  induction tl with
  | nil => intro i k h; exact absurd h (by simp)
  | cons t rest ih =>
    intro i k h
    cases k with
    | zero => simp [batchResults]
    | succ k =>
      have hk : k < rest.length := by simpa using h
      have := ih (i + 1) k hk
      simpa [batchResults, Nat.add_assoc, Nat.add_comm 1 k] using this

/-! ## Claim theorems -/

/-- Claim C10: the speech-rate adjustment is total on its rate parameter:
a non-positive or NaN rate returns the input unchanged, a time-stretch
exception is caught and the input returned, and in every case the result
is either the input or the successful stretch output (no exception
escapes). -/
theorem adjust_speech_rate_total (audio : List ℚ) (rate : PyFloat)
    (ts : List ℚ → PyFloat → Except String (List ℚ)) :
    ((pyLeZero rate || pyNeSelf rate) = true →
      adjust_speech_rate audio rate ts = audio) ∧
    (∀ m, ts audio rate = .error m → adjust_speech_rate audio rate ts = audio) ∧
    (adjust_speech_rate audio rate ts = audio ∨
      ts audio rate = .ok (adjust_speech_rate audio rate ts)) := by
  unfold adjust_speech_rate
  by_cases hg : (pyLeZero rate || pyNeSelf rate) = true
  · simp [hg]
  · cases hts : ts audio rate with
    | ok a => simp [hg, hts]
    | error m => simp [hg, hts]

def c10ts : List ℚ → PyFloat → Except String (List ℚ) :=
  fun _ _ => .error "librosa failure"

theorem adjust_speech_rate_total_witness :
    adjust_speech_rate [1] PyFloat.nan c10ts = [1] :=
  (adjust_speech_rate_total [1] .nan c10ts).1 (by decide)

/-- Claim C8: the engine wrapper fails with the not-ready error whenever
the model has not finished loading, fails with the reference-not-found
error whenever (ready and) the reference path does not exist, and on
success returns the samples and rate reloaded from the output file on
disk together with the supplied output path. -/
theorem engine_synthesize_contract (e : EngineSt)
    (refPath outPath defaultPath : String) (env : EngineEnv) :
    (is_ready e = false →
      engine_synthesize e refPath outPath defaultPath env =
        .error (.engineNotReady "TTS model is not ready")) ∧
    (is_ready e = true → env.pathExists refPath = false →
      engine_synthesize e refPath outPath defaultPath env =
        .error (.referenceNotFound ("Reference audio not found: " ++ refPath))) ∧
    (is_ready e = true → env.pathExists refPath = true → outPath ≠ "" →
      ∀ a sr, env.tts_to_file = .ok () →
        env.load_output outPath = .ok (a, sr) →
        engine_synthesize e refPath outPath defaultPath env =
          .ok (a, sr, outPath)) := by
  refine ⟨?_, ?_, ?_⟩
  · intro h; simp [engine_synthesize, h]
  · intro hr hp; simp [engine_synthesize, hr, hp]
  · intro hr hp ho a sr ht hl
    simp [engine_synthesize, hr, hp, ho, ht, hl]

def c8env : EngineEnv := ⟨fun _ => true, .ok (), fun _ => .ok (7, 22050)⟩

theorem engine_synthesize_contract_witness :
    engine_synthesize ⟨true, true⟩ "ref.wav" "out.wav" "default.wav" c8env =
      .ok (7, 22050, "out.wav") :=
  (engine_synthesize_contract ⟨true, true⟩ "ref.wav" "out.wav" "default.wav"
    c8env).2.2 rfl rfl (by decide) 7 22050 rfl rfl

/-- Claim C4 counterexample: a request supplying BOTH a catalogued preset
name and an uploaded reference silently resolves to the preset — the code
does pick one rather than rejecting or requiring exclusivity. -/
theorem resolve_picks_sample_when_both_given :
    resolveReference (some "elon_musk.wav") (some ⟨".wav"⟩) =
      .ok (.sample "elon_musk.wav") := rfl

/-- Claim C4 (amended): resolution yields exactly one source — a valid
preset name always wins (even with an upload also present), otherwise a
present upload is used, otherwise the request is rejected with HTTP 400;
it is not mutually exclusive when both are supplied. -/
theorem resolve_reference_amended (sa : Option String) (ua : Option UploadFile) :
    (validSample sa = true →
      ∃ s, sa = some s ∧ resolveReference sa ua = .ok (.sample s)) ∧
    (validSample sa = false → ∀ u, ua = some u →
      resolveReference sa ua = .ok (.upload u)) ∧
    (validSample sa = false → ua = none →
      resolveReference sa ua =
        .error (400, "Please provide either a reference audio file or select a sample audio")) := by
  cases sa with
  | none =>
    refine ⟨?_, ?_, ?_⟩
    · intro h; exact absurd h (by decide)
    · intro _ u hu; subst hu; rfl
    · intro _ hn; subst hn; rfl
  | some s =>
    by_cases h1 : s = ""
    · subst h1
      refine ⟨?_, ?_, ?_⟩
      · intro h; exact absurd h (by decide)
      · intro _ u hu; subst hu; simp [resolveReference]
      · intro _ hn; subst hn; simp [resolveReference]
    · by_cases h2 : sampleFound s = true
      · refine ⟨?_, ?_, ?_⟩
        · intro _; exact ⟨s, rfl, by simp [resolveReference, h1, h2]⟩
        · intro hv; exact absurd hv (by simp [validSample, h1, h2])
        · intro hv; exact absurd hv (by simp [validSample, h1, h2])
      · have h2f : sampleFound s = false := by
          cases hsf : sampleFound s
          · rfl
          · exact absurd hsf h2
        refine ⟨?_, ?_, ?_⟩
        · intro hv
          exact absurd hv (by simp [validSample, h1, h2f])
        · intro _ u hu; subst hu; simp [resolveReference, h1, h2f]
        · intro _ hn; subst hn; simp [resolveReference, h1, h2f]

theorem resolve_reference_amended_witness :
    resolveReference (none : Option String) (some ⟨".mp3"⟩) =
      .ok (.upload ⟨".mp3"⟩) :=
  (resolve_reference_amended none (some ⟨".mp3"⟩)).2.1 rfl ⟨".mp3"⟩ rfl

/-- Claim C9: a preset name catalogued under ANY language is accepted as
the reference source — the catalog check is the union of all languages'
sample lists and does not consult the request's language code — and a
valid preset is used even when an uploaded reference file is also
present: the handler proceeds to the sample branch for every supported
language and every (possibly present) upload. -/
theorem preset_any_language (s : String) (hs : sampleFound s = true)
    (hne : s ≠ "") :
    (∀ ref, resolveReference (some s) ref = .ok (.sample s)) ∧
    (sampleFound s = (SAMPLE_AUDIOS_en.contains s || SAMPLE_AUDIOS_de.contains s)) ∧
    (∀ (lang : String) (ref : Option UploadFile) (o : SynthOracles),
      LANGUAGE_OPTIONS.contains lang = true →
      synthesizeModel ⟨"hello", lang, ref, some s⟩ o =
        if ¬ o.getEngineOk then ⟨.err 500 "Synthesis failed", [], [], 0⟩
        else refStageSample s o) := by
  have hres : ∀ ref, resolveReference (some s) ref = .ok (.sample s) := by
    intro ref
    simp [resolveReference, hne, hs]
  refine ⟨hres, rfl, ?_⟩
  intro lang ref o hlang
  have hmem : lang ∈ LANGUAGE_OPTIONS := by simpa using hlang
  have h1 : ¬ (pyStrip "hello" = "") := by decide
  have h2 : ¬ (5000 < ("hello" : String).length) := by decide
  simp only [synthesizeModel, h1, if_false, if_neg h1, if_neg h2]
  rw [hres]
  simp [hmem]

theorem preset_any_language_witness :
    resolveReference (some "thomas_müller.wav") (some ⟨".wav"⟩) =
      .ok (.sample "thomas_müller.wav") :=
  (preset_any_language "thomas_müller.wav" (by decide) (by decide)).1 (some ⟨".wav"⟩)

/-- Concrete /synthesize request exhibiting the temp-file leak: a valid
text and language with an uploaded `.wav` reference. -/
def leakReq : SynthRequest := ⟨"hello", "en", some ⟨".wav"⟩, none⟩

/-- Oracles for the leak scenario: everything succeeds except that the
preprocessed reference comes out one second long (22050 samples at
22050 Hz), which trips the minimum-duration check. -/
def leakOracles : SynthOracles :=
  ⟨true, true, .ok (SAMPLE_RATE * 5, SAMPLE_RATE), .ok (SAMPLE_RATE * 5, SAMPLE_RATE),
   .completed 0 "", .ok (SAMPLE_RATE * 5, SAMPLE_RATE),
   fun _ => .ok (SAMPLE_RATE, SAMPLE_RATE), true, .ok "out.wav"⟩

/-- Claim C1 (code bug): a /synthesize request whose uploaded reference
preprocesses to under two seconds returns its 400 response while the
uploaded temporary copy is still on disk — the cleanup `finally`
(app.py lines 258-265) guards only the synthesis call and is never
entered when the reference stage fails, even though the file was appended
to `temp_audio_files` "for cleanup" at line 181. -/
theorem synthesize_leaks_upload_on_short_reference :
    synthesizeModel leakReq leakOracles =
      ⟨.err 400 "Reference audio is too short - minimum 2 seconds required",
       [.upload], [.upload], 0⟩ := by decide

/-- Claim C5: in the format bridge, a file the primary decoder accepts
invokes no subprocess; one it rejects triggers exactly one subprocess
attempt; a missing ffmpeg binary yields the dependency-missing error; a
non-zero exit yields the transcode error carrying stderr truncated to 200
characters; and the subprocess is bounded by the 30-second timeout whose
expiry is also a transcode error. -/
theorem format_bridge_contract (req : SynthRequest) (o : SynthOracles)
    (u : UploadFile)
    (htext : ¬ pyStrip req.text = "") (hlen : ¬ 5000 < req.text.length)
    (hlang : LANGUAGE_OPTIONS.contains req.language = true)
    (hsa : req.sample_audio = none) (hra : req.reference_audio = some u)
    (hext : allowed_extensions.contains (pyLower u.suffix) = true)
    (heng : o.getEngineOk = true) :
    ((∃ la, o.loadUpload = .ok la) → (synthesizeModel req o).ffmpegCalls = 0) ∧
    (o.loadUpload = .error () → (synthesizeModel req o).ffmpegCalls = 1) ∧
    (∀ out, convert_to_wav_ffmpeg out .binaryMissing =
      .error (.dependencyMissing
        "FFmpeg not installed! Please run: conda install ffmpeg -y")) ∧
    (∀ out rc stderrText, rc ≠ 0 →
      convert_to_wav_ffmpeg out (.completed rc stderrText) =
        .error (.transcodeError
          ("FFmpeg conversion failed: FFmpeg error: " ++ stderrText.take 200))) ∧
    (∀ out, ∃ m, convert_to_wav_ffmpeg out .timedOut =
      .error (.transcodeError m)) ∧
    ffmpegTimeout = 30 := by
  have hmem : req.language ∈ LANGUAGE_OPTIONS := by simpa using hlang
  have hextm : pyLower u.suffix ∈ allowed_extensions := by simpa using hext
  have hmodel : synthesizeModel req o = refStageUpload o := by
    simp [synthesizeModel, htext, hlen, hmem, hsa, hra, resolveReference,
      hextm, heng]
  refine ⟨?_, ?_, ?_, ?_, ?_, rfl⟩
  · rintro ⟨la, hla⟩; rw [hmodel]; exact refStageUpload_calls_ok o la hla
  · intro h; rw [hmodel]; exact refStageUpload_calls_err o h
  · intro out; rfl
  · intro out rc stderrText hrc; simp [convert_to_wav_ffmpeg, hrc]
  · intro out; exact ⟨_, rfl⟩

def c5req : SynthRequest := ⟨"hi", "en", some ⟨".wav"⟩, none⟩

def c5oracles : SynthOracles :=
  ⟨true, true, .ok (1, 1), .error (), .binaryMissing, .error (),
   fun _ => .error (), true, .error ()⟩

theorem format_bridge_contract_witness :
    (synthesizeModel c5req c5oracles).ffmpegCalls = 1 :=
  (format_bridge_contract c5req c5oracles ⟨".wav"⟩ (by decide) (by decide)
    (by decide) rfl rfl (by decide) rfl).2.1 rfl

/-- Claim C6: every request with empty or whitespace-only text, text over
5000 characters, an unsupported language, or neither an upload nor a
valid preset name is answered with HTTP 400, and no temporary file is
created on any of those paths. -/
theorem validation_short_circuits (req : SynthRequest) (o : SynthOracles)
    (h : pyStrip req.text = "" ∨ 5000 < req.text.length ∨
      LANGUAGE_OPTIONS.contains req.language = false ∨
      (req.reference_audio = none ∧ validSample req.sample_audio = false)) :
    ∃ d, synthesizeModel req o = ⟨.err 400 d, [], [], 0⟩ := by
  by_cases h1 : pyStrip req.text = ""
  · exact ⟨"Text cannot be empty", by simp [synthesizeModel, h1]⟩
  · by_cases h2 : 5000 < req.text.length
    · exact ⟨"Text length cannot exceed 5000 characters",
        by simp [synthesizeModel, h1, h2]⟩
    · by_cases h3 : LANGUAGE_OPTIONS.contains req.language = true
      · have hmem : req.language ∈ LANGUAGE_OPTIONS := by simpa using h3
        rcases h with h | h | h | ⟨hra, hvs⟩
        · exact absurd h h1
        · exact absurd h h2
        · rw [h3] at h; exact absurd h (by simp)
        · have hres := resolveReference_none_invalid req.sample_audio hvs
          exact ⟨"Please provide either a reference audio file or select a sample audio",
            by simp [synthesizeModel, h1, h2, hmem, hra, hres]⟩
      · have hmem : req.language ∉ LANGUAGE_OPTIONS := by simpa using h3
        exact ⟨"Unsupported language. Supported languages: en, de",
          by simp [synthesizeModel, h1, h2, hmem]⟩

def c6oracles : SynthOracles :=
  ⟨true, true, .error (), .error (), .binaryMissing, .error (),
   fun _ => .error (), true, .error ()⟩

theorem validation_short_circuits_witness :
    ∃ d, synthesizeModel ⟨"", "en", none, none⟩ c6oracles =
      ⟨.err 400 d, [], [], 0⟩ :=
  validation_short_circuits ⟨"", "en", none, none⟩ c6oracles (Or.inl (by decide))

/-- Claim C7: once the batch endpoint reaches its loop (reference audio
processed, engine ready), the response carries one result per non-empty
input text, in input order (item k has index k and the k-th text), the
reported total equals that count, a per-item synthesis failure is
recorded as that item's error entry, and successful items report
success — no failure aborts the remaining texts. -/
theorem batch_isolation (texts language : String) (o : BatchOracles)
    (la : Nat × Nat) (pre : Nat × Nat)
    (hb : o.bytesio = .ok la) (hp : o.preprocessOutcome la = .ok pre)
    (hs : o.saveOk = true) (hr : o.engineReady = true)
    (hl : LANGUAGE_OPTIONS.contains language = true) :
    synthesizeBatchModel texts language true o =
      .ok (textListOf texts).length (batchResults 0 (textListOf texts) o.synth) ∧
    (batchResults 0 (textListOf texts) o.synth).length =
      (textListOf texts).length ∧
    (∀ k (hk : k < (textListOf texts).length),
      (batchResults 0 (textListOf texts) o.synth).get? k =
        some (batchItemOf k ((textListOf texts).get ⟨k, hk⟩)
          (o.synth k ((textListOf texts).get ⟨k, hk⟩)))) ∧
    (∀ i t p, (batchItemOf i t (.ok p)).status = "success" ∧
      (batchItemOf i t (.ok p)).index = i ∧ (batchItemOf i t (.ok p)).text = t) ∧
    (∀ i t m, (batchItemOf i t (.error m)).status = "error" ∧
      (batchItemOf i t (.error m)).index = i ∧
      (batchItemOf i t (.error m)).text = t) := by
  have hmem : language ∈ LANGUAGE_OPTIONS := by simpa using hl
  refine ⟨?_, batchResults_length 0 _ _, ?_, ?_, ?_⟩
  · simp [synthesizeBatchModel, hmem, hb, hp, hs, hr]
  · intro k hk
    have := batchResults_get (textListOf texts) o.synth 0 k hk
    simpa using this
  · intro i t p; exact ⟨rfl, rfl, rfl⟩
  · intro i t m; exact ⟨rfl, rfl, rfl⟩

def c7oracles : BatchOracles :=
  ⟨.ok (1, 1), fun _ => .ok (1, 1), true, true,
   fun i _ => if i = 1 then .error "engine error" else .ok "out"⟩

theorem batch_isolation_witness :
    synthesizeBatchModel "a\nb\nc" "en" true c7oracles =
      .ok (textListOf "a\nb\nc").length
        (batchResults 0 (textListOf "a\nb\nc") c7oracles.synth) :=
  (batch_isolation "a\nb\nc" "en" c7oracles (1, 1) (1, 1) rfl rfl rfl rfl
    (by decide)).1

/-! ## Helper lemmas for the real-valued audio model -/

theorem init_le_foldl_max (l : List ℝ) (c : ℝ) : c ≤ l.foldl max c := by
  induction l generalizing c with
  | nil => exact le_refl c
  | cons h t ih => exact le_trans (le_max_left c h) (ih (max c h))

theorem mem_le_foldl_max (l : List ℝ) (c x : ℝ) (hx : x ∈ l) :
    x ≤ l.foldl max c := by
  induction l generalizing c with
  | nil => cases hx
  | cons h t ih =>
    rw [List.foldl_cons]
    rcases List.mem_cons.1 hx with rfl | hx'
    · exact le_trans (le_max_right c x) (init_le_foldl_max t (max c x))
    · exact ih (max c h) hx'

theorem foldl_max_eq_init (l : List ℝ) (c : ℝ) (h : ∀ x ∈ l, x ≤ c) :
    l.foldl max c = c := by
  induction l with
  | nil => rfl
  | cons hd t ih =>
    rw [List.foldl_cons, max_eq_left (h hd (List.mem_cons_self hd t))]
    exact ih (fun x hx => h x (List.mem_cons_of_mem hd hx))

theorem mem_le_peakAbs (a : List ℝ) (x : ℝ) (hx : x ∈ a) : |x| ≤ peakAbs a :=
  mem_le_foldl_max _ 0 _ (List.mem_map_of_mem _ hx)

theorem peak_clip_le (b : List ℝ) (x : ℝ)
    (hx : x ∈ if 0.95 < peakAbs b
      then b.map (fun y => y * (0.95 / peakAbs b)) else b) :
    |x| ≤ 0.95 := by
  by_cases hp : (0.95 : ℝ) < peakAbs b
  · rw [if_pos hp] at hx
    obtain ⟨y, hy, rfl⟩ := List.mem_map.1 hx
    have hm0 : (0:ℝ) < peakAbs b := lt_trans (by norm_num) hp
    have hc : (0:ℝ) < 0.95 / peakAbs b := div_pos (by norm_num) hm0
    have hyb : |y| ≤ peakAbs b := mem_le_peakAbs b y hy
    calc |y * (0.95 / peakAbs b)| = |y| * (0.95 / peakAbs b) := by
          rw [abs_mul, abs_of_pos hc]
      _ ≤ peakAbs b * (0.95 / peakAbs b) :=
          mul_le_mul_of_nonneg_right hyb (le_of_lt hc)
      _ = 0.95 := by field_simp
  · rw [if_neg hp] at hx
    exact le_trans (mem_le_peakAbs b x hx) (not_lt.1 hp)

theorem normalize_audio_all_zero (a : List ℝ) (h : ∀ x ∈ a, x = 0) :
    normalize_audio a = a := by
  have hsum : (a.map (fun x => x ^ 2)).sum = 0 := by
    apply List.sum_eq_zero
    intro y hy
    obtain ⟨x, hx, rfl⟩ := List.mem_map.1 hy
    rw [h x hx]
    ring
  have hr : rms a = 0 := by
    rw [rms, hsum]
    simp
  have hpeak : peakAbs a = 0 := by
    rw [peakAbs]
    apply foldl_max_eq_init
    intro y hy
    obtain ⟨x, hx, rfl⟩ := List.mem_map.1 hy
    rw [h x hx]
    simp
  simp only [normalize_audio, hr, lt_irrefl, if_false, hpeak]
  norm_num

/-- Claim C2: for every input buffer and sample rate, conditioning either
returns audio (at the unchanged sample rate) whose duration lies in
[2 s, 30 s] — the returned buffer being the conditioned signal truncated
to 30 s of samples — or fails with the too-short error, exactly when the
conditioned-and-truncated signal is shorter than 2 s. -/
theorem preprocess_contract (trim_fn : List ℝ → List ℝ) (audio : List ℝ)
    (sr : Nat) (hsr : 0 < sr) :
    (∀ a' sr', preprocess_reference_audio trim_fn audio sr = .ok (a', sr') →
      sr' = sr ∧
      a' = (normalize_audio (apply_frequency_eq (trim_fn audio) sr)).take (sr * 30) ∧
      2 ≤ get_audio_duration a' sr ∧ get_audio_duration a' sr ≤ 30) ∧
    (∀ msg, preprocess_reference_audio trim_fn audio sr = .error msg →
      msg = "Reference audio too short - minimum 2 seconds required" ∧
      get_audio_duration
        ((normalize_audio (apply_frequency_eq (trim_fn audio) sr)).take (sr * 30))
        sr < 2) := by
  have hsr' : (0:ℝ) < (sr:ℝ) := by exact_mod_cast hsr
  set a3 := normalize_audio (apply_frequency_eq (trim_fn audio) sr) with ha3
  have htake : (if sr * 30 < a3.length then a3.take (sr * 30) else a3) =
      a3.take (sr * 30) := by
    by_cases hcase : sr * 30 < a3.length
    · rw [if_pos hcase]
    · rw [if_neg hcase, List.take_of_length_le (le_of_not_lt hcase)]
  have hlen_take : (a3.take (sr * 30)).length ≤ sr * 30 := by
    rw [List.length_take]
    exact min_le_left _ _
  constructor
  · intro a' sr' hok
    simp only [preprocess_reference_audio, ← ha3] at hok
    rw [htake] at hok
    by_cases hshort : (a3.take (sr * 30)).length < sr * 2
    · rw [if_pos hshort] at hok
      exact absurd hok (by simp)
    · rw [if_neg hshort] at hok
      simp only [Except.ok.injEq, Prod.mk.injEq] at hok
      obtain ⟨ha', hsrEq⟩ := hok
      subst ha'
      subst hsrEq
      refine ⟨rfl, rfl, ?_, ?_⟩
      · have h2 : sr * 2 ≤ (a3.take (sr * 30)).length := le_of_not_lt hshort
        rw [get_audio_duration, le_div_iff₀ hsr']
        exact_mod_cast (by omega : 2 * sr ≤ (a3.take (sr * 30)).length)
      · rw [get_audio_duration, div_le_iff₀ hsr']
        have h3 : (a3.take (sr * 30)).length ≤ 30 * sr := by omega
        exact_mod_cast h3
  · intro msg herr
    simp only [preprocess_reference_audio, ← ha3] at herr
    rw [htake] at herr
    by_cases hshort : (a3.take (sr * 30)).length < sr * 2
    · rw [if_pos hshort] at herr
      refine ⟨(Except.error.inj herr).symm, ?_⟩
      rw [get_audio_duration, div_lt_iff₀ hsr']
      exact_mod_cast (by omega : (a3.take (sr * 30)).length < 2 * sr)
    · rw [if_neg hshort] at herr
      exact absurd herr (by simp)

theorem preprocess_contract_witness :
    2 ≤ get_audio_duration (List.replicate 2 (0:ℝ)) 1 ∧
    get_audio_duration (List.replicate 2 (0:ℝ)) 1 ≤ 30 := by
  have hz : normalize_audio (List.replicate 2 (0:ℝ)) = List.replicate 2 (0:ℝ) :=
    normalize_audio_all_zero _ (by
      intro x hx
      exact List.eq_of_mem_replicate hx)
  have heval : preprocess_reference_audio (fun l => l) (List.replicate 2 (0:ℝ)) 1 =
      .ok (List.replicate 2 (0:ℝ), 1) := by
    simp only [preprocess_reference_audio, apply_frequency_eq, hz,
      List.length_replicate]
    norm_num
  have h := (preprocess_contract (fun l => l) (List.replicate 2 (0:ℝ)) 1
    (by norm_num)).1 (List.replicate 2 (0:ℝ)) 1 heval
  exact ⟨h.2.2.1, h.2.2.2⟩

/-- A signal whose RMS is exactly the 0.1 target but whose peak exceeds
0.95: one full-scale sample among one hundred. -/
def targetRmsCex : List ℝ := 1 :: List.replicate 99 0

theorem rms_targetRmsCex : rms targetRmsCex = 0.1 := by
  have hmap : targetRmsCex.map (fun x => x ^ 2) =
      (1:ℝ) :: List.replicate 99 0 := by
    simp [targetRmsCex, List.map_replicate]
  have hsum : (targetRmsCex.map (fun x => x ^ 2)).sum = 1 := by
    rw [hmap]
    simp
  have hlen : (targetRmsCex.length : ℝ) = 100 := by
    simp [targetRmsCex]
  rw [rms, hsum, hlen]
  rw [show (1:ℝ) / 100 = (0.1:ℝ) ^ 2 by norm_num]
  exact Real.sqrt_sq (by norm_num)

theorem peakAbs_targetRmsCex : peakAbs targetRmsCex = 1 := by
  have hmap : targetRmsCex.map (fun x => |x|) =
      (1:ℝ) :: List.replicate 99 0 := by
    simp [targetRmsCex, List.map_replicate]
  rw [peakAbs, hmap, List.foldl_cons]
  rw [foldl_max_eq_init]
  · norm_num
  · intro x hx
    rw [List.eq_of_mem_replicate hx]
    positivity

/-- Claim C3 counterexample: normalization is NOT the identity on every
signal whose RMS already equals the 0.1 target — on a signal at target
RMS whose peak exceeds 0.95 the final peak-limiting stage rescales it. -/
theorem normalize_not_identity_at_target_rms :
    rms targetRmsCex = 0.1 ∧ normalize_audio targetRmsCex ≠ targetRmsCex := by
  refine ⟨rms_targetRmsCex, ?_⟩
  have hid : targetRmsCex.map (fun x => x * (0.1 / 0.1)) = targetRmsCex := by
    rw [show (0.1:ℝ) / 0.1 = 1 by norm_num]
    simp
  have hnorm : normalize_audio targetRmsCex =
      (0.95 : ℝ) :: List.replicate 99 0 := by
    simp only [normalize_audio, rms_targetRmsCex]
    rw [if_pos (by norm_num : (0:ℝ) < 0.1), hid, peakAbs_targetRmsCex]
    rw [if_pos (by norm_num : (0.95:ℝ) < 1)]
    rw [show (0.95:ℝ) / 1 = 0.95 by norm_num]
    simp [targetRmsCex, List.map_replicate]
  rw [hnorm, targetRmsCex]
  intro hcontra
  have : (0.95 : ℝ) = 1 := by
    injection hcontra with h1 _
  norm_num at this

/-- Claim C3 (amended): normalization leaves unchanged every signal whose
RMS already equals the 0.1 target AND whose peak magnitude is at most
0.95 (the peak condition is forced by the final limiter stage); its
output never contains a sample of magnitude above 0.95; and every
all-zero (zero-RMS) signal is returned unchanged. -/
theorem normalize_audio_spec (a : List ℝ) :
    (rms a = 0.1 → peakAbs a ≤ 0.95 → normalize_audio a = a) ∧
    (∀ x ∈ normalize_audio a, |x| ≤ 0.95) ∧
    ((∀ x ∈ a, x = 0) → normalize_audio a = a) := by
  refine ⟨?_, ?_, normalize_audio_all_zero a⟩
  · intro hrms hpk
    have hid : a.map (fun x => x * (0.1 / 0.1)) = a := by
      rw [show (0.1:ℝ) / 0.1 = 1 by norm_num]
      simp
    simp only [normalize_audio, hrms]
    rw [if_pos (by norm_num : (0:ℝ) < 0.1), hid, if_neg (not_lt.2 hpk)]
  · intro x hx
    simp only [normalize_audio] at hx
    exact peak_clip_le _ x hx

theorem normalize_audio_spec_witness :
    normalize_audio [(0.1:ℝ)] = [0.1] ∧ normalize_audio [(0:ℝ)] = [0] := by
  constructor
  · apply (normalize_audio_spec [(0.1:ℝ)]).1
    · rw [rms]
      simp only [List.map_cons, List.map_nil, List.sum_cons, List.sum_nil,
        List.length_cons, List.length_nil]
      rw [show ((0.1:ℝ) ^ 2 + 0) / (0 + 1 : Nat) = (0.1:ℝ) ^ 2 by push_cast; ring]
      exact Real.sqrt_sq (by norm_num)
    · rw [peakAbs]
      simp only [List.map_cons, List.map_nil, List.foldl_cons, List.foldl_nil]
      rw [abs_of_pos (by norm_num : (0:ℝ) < 0.1)]
      norm_num
  · exact (normalize_audio_spec [(0:ℝ)]).2.2 (by simp)
